import Mathlib

/-!
Verification of the buffer-marshaling layer of the eos python bindings
(src/python/generate-python-bindings.cpp).

The bindings marshal between python buffer objects (pybind11 `buffer_info`)
and the OpenCV types `cv::Vec2f`, `cv::Vec4f` and `cv::Mat`.  The marshaling
code never interprets the floating-point values it moves, so scalars are
modelled as opaque machine words (`Scalar := Nat`), one entry per element
slot of the element size of the buffer.  Memory addresses are modelled as `Nat`
so that sharing versus copying of storage is observable.
-/

namespace EosBindings

/-- A raw scalar word as stored in buffer memory.  The marshaling layer only
copies or aliases scalars, never computes with them, so an opaque word
suffices. -/
abbrev Scalar := Nat

/-- Element-format tag of a python buffer, as compared against
`py::format_descriptor<float>::format()` (float32) and
`py::format_descriptor<double>::format()` (float64) in the source.  Any other
format string is `other`. -/
inductive BufFormat where
  | f32 : BufFormat
  | f64 : BufFormat
  | other : String → BufFormat
deriving DecidableEq, Repr

/-- `pybind11::buffer_info`: the descriptor of a foreign (python-side) buffer.
`ptr` is the address of the first scalar; `data` is the memory visible from
`ptr` onward, one list entry per scalar slot; `strides` are byte strides per
axis, as in the source. -/
structure BufferInfo where
  ptr : Nat
  data : List Scalar
  itemsize : Nat
  format : BufFormat
  ndim : Nat
  shape : List Nat
  strides : List Nat
deriving DecidableEq, Repr

/-- Error taxonomy of the marshaling layer.  The C++ source raises every
failure as `std::runtime_error`; the constructors here record which kind of
precondition fired (dimensionality/shape, element format, storage layout),
with the message text of the source. -/
inductive BindErr where
  | shapeErr : String → BindErr
  | typeErr : String → BindErr
  | layoutErr : String → BindErr
deriving DecidableEq, Repr

/-- Whether an `Except` result is a success. -/
def isOkResult {ε α : Type} : Except ε α → Bool
  | .ok _ => true
  | .error _ => false

/-- `cv::Vec<float, n>` (i.e. `cv::Matx<float, n, 1>`, a column vector of
`n` rows and 1 column).  `ptr` models the address `&vec.val` of its internal
float array, `val` the contents of the array. -/
structure CvVec (n : Nat) where
  ptr : Nat
  val : List Scalar
deriving DecidableEq, Repr

/-- `cv::Vec<_, n>` derives from `cv::Matx<_, n, 1>`: `rows = n`. -/
def cvVecRows (n : Nat) : Nat := n

/-- `cv::Vec<_, n>` derives from `cv::Matx<_, n, 1>`: `cols = 1`. -/
def cvVecCols : Nat := 1

/-- Depth (element scalar type) of a `cv::Mat`. -/
inductive CVDepth where
  | d32F : CVDepth
  | d64F : CVDepth
  | d8U : CVDepth
deriving DecidableEq, Repr

/-- Byte size of one scalar of the given depth. -/
def CVDepth.size : CVDepth → Nat
  | .d32F => 4
  | .d64F => 8
  | .d8U => 1

/-- `cv::Mat`: a matrix header.  `ptr` models the `data` pointer (address of
the first element), `data` the memory contents viewed through it, `step` the
byte stride between successive rows, `dims` the dimensionality of the header.
A header constructed over user memory (as the bindings do) aliases that
memory: `ptr` equals the foreign pointer and no copy is made. -/
structure CvMat where
  ptr : Nat
  data : List Scalar
  rows : Nat
  cols : Nat
  dims : Nat
  depth : CVDepth
  channels : Nat
  step : Nat
deriving DecidableEq, Repr

/-- `cv::Mat::elemSize()`: bytes per element (all channels). -/
def CvMat.elemSize (m : CvMat) : Nat := m.depth.size * m.channels

/-- `cv::Mat::isContinuous()`: true when the rows are stored without gaps,
i.e. the row step equals `cols * elemSize()`; single-row (and empty) matrices
are always continuous. -/
def CvMat.isContinuous (m : CvMat) : Bool :=
  m.rows ≤ 1 || m.step == m.cols * m.elemSize

/-- `cv::Mat::type() == CV_32F`, i.e. depth 32-bit float with 1 channel. -/
def CvMat.typeIs32F (m : CvMat) : Bool :=
  m.depth == CVDepth.d32F && m.channels == 1

/-- The `__init__` lambda bound for `Vec2f` (n = 2, source lines 59-81) and
`Vec4f` (n = 4, lines 95-117); the two lambdas are identical up to the arity
and the `Vec2f`/`Vec4f` name in the messages.  `dst` models the address of
the placement-new target provided by pybind11.  Checks, in source order:
`ndim != 1`, `strides.size() != 1`, `shape.size() != 1`, `shape[0] != n`,
then the format: on float32 it builds `cv::Mat temp(1, n, CV_32FC1, info.ptr)`
and copy-constructs the `cv::Vec` from it, which reads the `n` consecutive
floats at `info.ptr`; any other format raises. -/
def vecInit (n : Nat) (dst : Nat) (info : BufferInfo) : Except BindErr (CvVec n) :=
  if info.ndim ≠ 1 then
    .error (.shapeErr "Buffer ndim is not 1, please hand a buffer with dimension == 1 to create a Vec.")
  else if info.strides.length ≠ 1 then
    .error (.shapeErr "strides.size() is not 1, please hand a buffer with strides.size() == 1 to create a Vec.")
  else if info.shape.length ≠ 1 then
    .error (.shapeErr "shape.size() is not 1, please hand a buffer with shape dimension == 1 to create a Vec.")
  else if info.shape.headD 0 ≠ n then
    .error (.shapeErr "shape[0] is not n, please hand a buffer with n entries to create a Vec.")
  else if info.format = BufFormat.f32 then
    .ok ⟨dst, info.data.take n⟩
  else
    .error (.typeErr "Not given a buffer of type float - please hand a buffer of type float to create a Vec.")

/-- The `def_buffer` lambda bound for `Vec2f` (source lines 82-92) and `Vec4f`
(lines 118-128): a borrowed view of the storage of the vector.  Pointer `&vec.val`,
scalar size `sizeof(float)`, format float32, 2 dimensions, shape
`{vec.rows, vec.cols}` and strides `{sizeof(float), sizeof(float)}`. -/
def vecDefBuffer (n : Nat) (vec : CvVec n) : BufferInfo :=
  { ptr := vec.ptr
    data := vec.val
    itemsize := 4
    format := BufFormat.f32
    ndim := 2
    shape := [cvVecRows n, cvVecCols]
    strides := [4, 4] }

/-- The `__init__` lambda bound for `Mat` (source lines 132-154).  Checks, in
source order: `ndim != 2`, `strides.size() != 2`, `shape.size() != 2`; then on
format float32 (resp. float64) it placement-constructs
`cv::Mat(info.shape[0], info.shape[1], CV_32FC1 (resp. CV_64FC1), info.ptr)`,
the user-data `cv::Mat` constructor, which does not copy: the header points at
`info.ptr` with `AUTO_STEP` (`step = cols * elemSize`); any other format
raises. -/
def matInit (info : BufferInfo) : Except BindErr CvMat :=
  if info.ndim ≠ 2 then
    .error (.shapeErr "Buffer ndim is not 2, only buffer dimension == 2 is currently supported.")
  else if info.strides.length ≠ 2 then
    .error (.shapeErr "strides.size() is not 2, only strides.size() == 2 is currently supported.")
  else if info.shape.length ≠ 2 then
    .error (.shapeErr "shape.size() is not 2, only shape dimensions of == 2 are currently supported.")
  else if info.format = BufFormat.f32 then
    .ok { ptr := info.ptr
          data := info.data
          rows := info.shape.headD 0
          cols := (info.shape.drop 1).headD 0
          dims := 2
          depth := CVDepth.d32F
          channels := 1
          step := (info.shape.drop 1).headD 0 * 4 }
  else if info.format = BufFormat.f64 then
    .ok { ptr := info.ptr
          data := info.data
          rows := info.shape.headD 0
          cols := (info.shape.drop 1).headD 0
          dims := 2
          depth := CVDepth.d64F
          channels := 1
          step := (info.shape.drop 1).headD 0 * 8 }
  else
    .error (.typeErr "Only the cv::Mat types CV_32FC1 and CV_64FC1 are currently supported.")

/-- The `def_buffer` lambda bound for `Mat` (source lines 156-199).  Checks,
in source order: `!mat.isContinuous()`, `mat.dims != 2`,
`mat.channels() != 1`, then `mat.type() == CV_32F`: on success a borrowed
descriptor over `mat.data` with shape `{rows, cols}` and row-major strides
`{sizeof(float) * cols, sizeof(float)}`; any other element type raises. -/
def matDefBuffer (mat : CvMat) : Except BindErr BufferInfo :=
  if !mat.isContinuous then
    .error (.layoutErr "Only continuous (contiguous) cv::Mat objects are currently supported.")
  else if mat.dims ≠ 2 then
    .error (.shapeErr "Only cv::Mat objects with dims == 2 are currently supported.")
  else if mat.channels ≠ 1 then
    .error (.shapeErr "Only cv::Mat objects with channels() == 1 are currently supported.")
  else if mat.typeIs32F then
    .ok { ptr := mat.ptr
          data := mat.data
          itemsize := 4
          format := BufFormat.f32
          ndim := mat.dims
          shape := [mat.rows, mat.cols]
          strides := [4 * mat.cols, 4] }
  else
    .error (.typeErr "Only the cv::Mat type CV_32F is currently supported.")

/-- The preconditions under which `vecInit n` succeeds, read off the
check sequence. -/
def validVecBuffer (n : Nat) (info : BufferInfo) : Prop :=
  info.ndim = 1 ∧ info.strides.length = 1 ∧ info.shape.length = 1 ∧
    info.shape.headD 0 = n ∧ info.format = BufFormat.f32

/-- The preconditions under which `matInit` succeeds. -/
def validMatBuffer (info : BufferInfo) : Prop :=
  info.ndim = 2 ∧ info.strides.length = 2 ∧ info.shape.length = 2 ∧
    (info.format = BufFormat.f32 ∨ info.format = BufFormat.f64)

/-- The preconditions under which `matDefBuffer` succeeds. -/
def exportableMat (m : CvMat) : Prop :=
  m.isContinuous = true ∧ m.dims = 2 ∧ m.channels = 1 ∧ m.depth = CVDepth.d32F

instance (n : Nat) (info : BufferInfo) : Decidable (validVecBuffer n info) := by
  unfold validVecBuffer; infer_instance

instance (info : BufferInfo) : Decidable (validMatBuffer info) := by
  unfold validMatBuffer; infer_instance

instance (m : CvMat) : Decidable (exportableMat m) := by
  unfold exportableMat; infer_instance

/-- The `fit_shape_and_pose` binding lambda (source lines 318-332), with the
native `fitting::fit_shape_and_pose` call (which lives outside this file)
abstracted into the argument `nativeFit : Option Int → (μ × ρ) × List κ × List κ`,
returning the (mesh, rendering-parameters) pair together with the
`pca_coeffs` and `blendshape_coeffs` output vectors it fills.  The binding
turns `num_shape_coefficients_to_fit == -1` into `boost::none` and any other
value into `boost::optional<int>(value)`, calls the native fit, and returns
`std::make_tuple(result.first, result.second, pca_coeffs, blendshape_coeffs)`. -/
def fitShapeAndPoseBinding {μ ρ κ : Type}
    (nativeFit : Option Int → (μ × ρ) × List κ × List κ)
    (numShapeCoefficientsToFit : Int) : μ × ρ × List κ × List κ :=
  let numShapeCoefficientsOpt : Option Int :=
    if numShapeCoefficientsToFit = -1 then none
    else some numShapeCoefficientsToFit
  let r := nativeFit numShapeCoefficientsOpt
  (r.1.1, r.1.2, r.2.1, r.2.2)


/-! ## Claim theorems -/

/-- Concrete `Vec2f` used for the C1 counterexample: storage at address 100,
elements 10 and 20. -/
def c1vec : CvVec 2 := ⟨100, [10, 20]⟩

/-- C1 counterexample: exporting a `Vec2f` does not report shape `(1, 2)`.
`cv::Vec2f` is `cv::Matx<float, 2, 1>`, so `{vec.rows, vec.cols}` is
`(2, 1)`. -/
theorem c1_shape_not_one_two : (vecDefBuffer 2 c1vec).shape ≠ [1, 2] := by
  decide

/-- C1 (amended): exporting a fixed vector of arity `n` produces a descriptor
with pointer to the internal storage of the vector, element size 4 bytes,
format float32, rank 2, shape `(n, 1)` (an `n`-row column vector) and strides
`(4, 4)` bytes; the data is the very storage of the vector (borrowed view, no
copy). -/
theorem c1_vec_export (n : Nat) (v : CvVec n) :
    vecDefBuffer n v =
      { ptr := v.ptr, data := v.val, itemsize := 4, format := BufFormat.f32,
        ndim := 2, shape := [n, 1], strides := [4, 4] } := rfl

/-- C4: for a valid float32 rank-1 buffer of length `n` with the default
(contiguous) stride, the constructed vector has exactly the buffer elements in
order, and exporting the constructed vector yields flattened contents equal to
the original input. -/
theorem c4_vec_roundtrip (n dst : Nat) (info : BufferInfo)
    (h1 : info.ndim = 1) (h2 : info.strides = [4]) (h3 : info.shape = [n])
    (h4 : info.format = BufFormat.f32) (h5 : n ≤ info.data.length) :
    vecInit n dst info = .ok ⟨dst, info.data.take n⟩ ∧
      (info.data.take n).length = n ∧
      (vecDefBuffer n ⟨dst, info.data.take n⟩).data = info.data.take n := by
  refine ⟨?_, ?_, rfl⟩
  · simp [vecInit, h1, h2, h3, h4]
  · simp [List.length_take, Nat.min_eq_left h5]

/-- Concrete input for the C4 witness: contiguous float32 rank-1 buffer of
length 2 holding 5 and 6. -/
def c4buf : BufferInfo :=
  { ptr := 0, data := [5, 6], itemsize := 4, format := BufFormat.f32,
    ndim := 1, shape := [2], strides := [4] }

/-- C4 witness at a concrete contiguous length-2 float32 buffer. -/
theorem c4_vec_roundtrip_witness :
    (c4buf.ndim = 1 ∧ c4buf.strides = [4] ∧ c4buf.shape = [2] ∧
      c4buf.format = BufFormat.f32 ∧ 2 ≤ c4buf.data.length) ∧
    (vecInit 2 7 c4buf = .ok ⟨7, c4buf.data.take 2⟩ ∧
      (c4buf.data.take 2).length = 2 ∧
      (vecDefBuffer 2 ⟨7, c4buf.data.take 2⟩).data = c4buf.data.take 2) :=
  ⟨by decide,
   c4_vec_roundtrip 2 7 c4buf (by decide) (by decide) (by decide) (by decide)
     (by decide)⟩

/-- C7: offering a buffer whose rank is not 1 to the arity-`n` vector
constructor fails with a ShapeError (the `ndim != 1` check) and no vector is
produced. -/
theorem c7_vec_rank_check (n dst : Nat) (info : BufferInfo)
    (h : info.ndim ≠ 1) :
    vecInit n dst info =
      .error (.shapeErr "Buffer ndim is not 1, please hand a buffer with dimension == 1 to create a Vec.") := by
  simp [vecInit, h]

/-- Concrete input for the C7 witness: a rank-2 buffer offered to the
2-element vector constructor (shape `(1, 2)`). -/
def c7buf : BufferInfo :=
  { ptr := 0, data := [1, 2], itemsize := 4, format := BufFormat.f32,
    ndim := 2, shape := [1, 2], strides := [8, 4] }

/-- C7 witness at a concrete rank-2 buffer. -/
theorem c7_vec_rank_check_witness :
    c7buf.ndim ≠ 1 ∧
      vecInit 2 0 c7buf =
        .error (.shapeErr "Buffer ndim is not 1, please hand a buffer with dimension == 1 to create a Vec.") :=
  ⟨by decide, c7_vec_rank_check 2 0 c7buf (by decide)⟩

/-- C10: the vector constructor never inspects the value of `strides[0]`: for
every rank-1, length-`n` float32 buffer, whatever byte stride `s` its
descriptor declares, construction succeeds and copies the `n` consecutive
scalars at the base pointer of the buffer. -/
theorem c10_stride_value_ignored (n dst s : Nat) (info : BufferInfo)
    (h1 : info.ndim = 1) (h2 : info.strides = [s]) (h3 : info.shape = [n])
    (h4 : info.format = BufFormat.f32) :
    vecInit n dst info = .ok ⟨dst, info.data.take n⟩ := by
  simp [vecInit, h1, h2, h3, h4]

/-- Concrete input for the C10 witness: a length-2 float32 buffer declaring a
non-default stride of 8 bytes; its logical elements are 1 and 3 but the
constructor reads the consecutive scalars 1 and 2. -/
def c10buf : BufferInfo :=
  { ptr := 0, data := [1, 2, 3, 4], itemsize := 4, format := BufFormat.f32,
    ndim := 1, shape := [2], strides := [8] }

/-- C10 witness at a concrete stride-8 buffer. -/
theorem c10_stride_value_ignored_witness :
    (c10buf.ndim = 1 ∧ c10buf.strides = [8] ∧ c10buf.shape = [2] ∧
      c10buf.format = BufFormat.f32) ∧
    vecInit 2 3 c10buf = .ok ⟨3, c10buf.data.take 2⟩ :=
  ⟨by decide,
   c10_stride_value_ignored 2 3 8 c10buf (by decide) (by decide) (by decide)
     (by decide)⟩

/-- Concrete foreign buffer for C2: a float32 buffer of shape `(2, 3)` whose
memory lives at address 500. -/
def c2buf : BufferInfo :=
  { ptr := 500, data := [1, 2, 3, 4, 5, 6], itemsize := 4,
    format := BufFormat.f32, ndim := 2, shape := [2, 3], strides := [12, 4] }

/-- C2 counterexample: the matrix constructed from `c2buf` has the data
pointer of the foreign buffer itself (the user-data `cv::Mat` constructor
wraps the memory), so its storage is a shared view, not a fresh copy as the
claim states. -/
theorem c2_storage_is_shared :
    (matInit c2buf).toOption.map CvMat.ptr = some c2buf.ptr := by
  decide

/-- C2 (amended): for every rank-2 foreign buffer of format float32 or
float64, the matrix constructor produces a matrix of `shape[0]` rows by
`shape[1]` columns with matching element depth and automatic row step, whose
storage is the memory of the foreign buffer itself (pointer shared, no
copy). -/
theorem c2_mat_init (info : BufferInfo) (R C : Nat)
    (h1 : info.ndim = 2) (h2 : info.strides.length = 2)
    (h3 : info.shape = [R, C]) :
    (info.format = BufFormat.f32 →
      matInit info =
        .ok { ptr := info.ptr, data := info.data, rows := R, cols := C,
              dims := 2, depth := CVDepth.d32F, channels := 1,
              step := C * 4 }) ∧
    (info.format = BufFormat.f64 →
      matInit info =
        .ok { ptr := info.ptr, data := info.data, rows := R, cols := C,
              dims := 2, depth := CVDepth.d64F, channels := 1,
              step := C * 8 }) := by
  constructor <;> intro h4 <;> simp [matInit, h1, h2, h3, h4]

/-- C2 witness: the amended constructor behaviour at the concrete buffer
`c2buf`. -/
theorem c2_mat_init_witness :
    (c2buf.ndim = 2 ∧ c2buf.strides.length = 2 ∧ c2buf.shape = [2, 3]) ∧
    (c2buf.format = BufFormat.f32 →
      matInit c2buf =
        .ok { ptr := c2buf.ptr, data := c2buf.data, rows := 2, cols := 3,
              dims := 2, depth := CVDepth.d32F, channels := 1,
              step := 3 * 4 }) :=
  ⟨by decide, (c2_mat_init c2buf 2 3 (by decide) (by decide) (by decide)).1⟩

/-- C3: constructing a matrix from a contiguous row-major float32 buffer of
shape `(R, C)` and exporting it again yields a descriptor with shape
`(R, C)`, strides `(4C, 4)` and exactly the memory contents of the input (the
same pointer, hence element-wise equality position for position). -/
theorem c3_mat_roundtrip (info : BufferInfo) (R C : Nat)
    (h1 : info.ndim = 2) (h2 : info.strides = [4 * C, 4])
    (h3 : info.shape = [R, C]) (h4 : info.format = BufFormat.f32) :
    (matInit info).bind matDefBuffer =
      .ok { ptr := info.ptr, data := info.data, itemsize := 4,
            format := BufFormat.f32, ndim := 2, shape := [R, C],
            strides := [4 * C, 4] } := by
  simp [matInit, matDefBuffer, h1, h2, h3, h4, Except.bind, CvMat.isContinuous,
    CvMat.elemSize, CvMat.typeIs32F, CVDepth.size, Nat.mul_comm]

/-- Concrete input for the C3 witness: a contiguous row-major float32 buffer
of shape `(2, 3)` holding 1..6. -/
def c3buf : BufferInfo :=
  { ptr := 64, data := [1, 2, 3, 4, 5, 6], itemsize := 4,
    format := BufFormat.f32, ndim := 2, shape := [2, 3], strides := [12, 4] }

/-- C3 witness at the concrete shape-(2,3) buffer. -/
theorem c3_mat_roundtrip_witness :
    (c3buf.ndim = 2 ∧ c3buf.strides = [4 * 3, 4] ∧ c3buf.shape = [2, 3] ∧
      c3buf.format = BufFormat.f32) ∧
    (matInit c3buf).bind matDefBuffer =
      .ok { ptr := c3buf.ptr, data := c3buf.data, itemsize := 4,
            format := BufFormat.f32, ndim := 2, shape := [2, 3],
            strides := [4 * 3, 4] } :=
  ⟨by decide,
   c3_mat_roundtrip c3buf 2 3 (by decide) (by decide) (by decide) (by decide)⟩

/-- C5: for every rank-2 float64 buffer, constructing the matrix succeeds
(with 64-bit float depth), yet exporting that very matrix fails with a
TypeError: the support is asymmetric between the two directions. -/
theorem c5_f64_asymmetry (info : BufferInfo)
    (h1 : info.ndim = 2) (h2 : info.strides.length = 2)
    (h3 : info.shape.length = 2) (h4 : info.format = BufFormat.f64) :
    ∃ m : CvMat, matInit info = .ok m ∧ m.depth = CVDepth.d64F ∧
      matDefBuffer m =
        .error (.typeErr "Only the cv::Mat type CV_32F is currently supported.") := by
  refine ⟨{ ptr := info.ptr, data := info.data, rows := info.shape.headD 0,
            cols := (info.shape.drop 1).headD 0, dims := 2,
            depth := CVDepth.d64F, channels := 1,
            step := (info.shape.drop 1).headD 0 * 8 }, ?_, rfl, ?_⟩
  · simp [matInit, h1, h2, h3, h4]
  · simp [matDefBuffer, CvMat.isContinuous, CvMat.elemSize, CvMat.typeIs32F,
      CVDepth.size, Nat.mul_comm]

/-- Concrete input for the C5 witness: a float64 buffer of shape `(2, 2)`. -/
def c5buf : BufferInfo :=
  { ptr := 0, data := [1, 2, 3, 4], itemsize := 8, format := BufFormat.f64,
    ndim := 2, shape := [2, 2], strides := [16, 8] }

/-- C5 witness at the concrete float64 buffer. -/
theorem c5_f64_asymmetry_witness :
    (c5buf.ndim = 2 ∧ c5buf.strides.length = 2 ∧ c5buf.shape.length = 2 ∧
      c5buf.format = BufFormat.f64) ∧
    (∃ m : CvMat, matInit c5buf = .ok m ∧ m.depth = CVDepth.d64F ∧
      matDefBuffer m =
        .error (.typeErr "Only the cv::Mat type CV_32F is currently supported.")) :=
  ⟨by decide,
   c5_f64_asymmetry c5buf (by decide) (by decide) (by decide) (by decide)⟩

/-- C6: exporting a matrix with at least two rows whose row step exceeds
`cols * elemSize` (a non-contiguous sub-matrix view) fails with a LayoutError
and no descriptor is produced. -/
theorem c6_noncontiguous_export (m : CvMat) (h1 : 2 ≤ m.rows)
    (h2 : m.cols * m.elemSize < m.step) :
    matDefBuffer m =
      .error (.layoutErr "Only continuous (contiguous) cv::Mat objects are currently supported.") := by
  have hr : ¬ m.rows ≤ 1 := by omega
  have hs : m.step ≠ m.cols * m.elemSize := by omega
  simp [matDefBuffer, CvMat.isContinuous, hr, hs]

/-- Concrete matrix for the C6 witness: a 2x2 float32 sub-matrix view with a
row step of 12 bytes (parent row width 3), larger than `2 * 4` bytes. -/
def c6mat : CvMat :=
  { ptr := 0, data := [1, 2, 3, 4, 5, 6], rows := 2, cols := 2, dims := 2,
    depth := CVDepth.d32F, channels := 1, step := 12 }

/-- C6 witness at the concrete non-contiguous sub-matrix view. -/
theorem c6_noncontiguous_export_witness :
    (2 ≤ c6mat.rows ∧ c6mat.cols * c6mat.elemSize < c6mat.step) ∧
    matDefBuffer c6mat =
      .error (.layoutErr "Only continuous (contiguous) cv::Mat objects are currently supported.") :=
  ⟨by decide, c6_noncontiguous_export c6mat (by decide) (by decide)⟩

/-- C8: every marshaling operation succeeds exactly when its preconditions
hold, so a violated precondition always yields an error and, the result being
an `Except`, no partially constructed native object is observable on the
error path. -/
theorem c8_atomic_error_paths (n dst : Nat) (info : BufferInfo) (m : CvMat) :
    (isOkResult (vecInit n dst info) = true ↔ validVecBuffer n info) ∧
    (isOkResult (matInit info) = true ↔ validMatBuffer info) ∧
    (isOkResult (matDefBuffer m) = true ↔ exportableMat m) := by
  refine ⟨?_, ?_, ?_⟩
  · unfold vecInit validVecBuffer
    split_ifs <;> simp_all [isOkResult]
  · unfold matInit validMatBuffer
    split_ifs <;> simp_all [isOkResult]
  · unfold matDefBuffer exportableMat
    split_ifs <;> simp_all [isOkResult, CvMat.typeIs32F]

/-- Concrete native-fit stand-in for the C9 witness. -/
def c9fit : Option Int → (Nat × Nat) × List Nat × List Nat
  | none => ((1, 2), [3], [4])
  | some k => ((k.toNat, 2), [3, 3], [4, 4])

/-- C9: the `fit_shape_and_pose` binding passes `none` to the native fit
exactly when the shape-coefficient cap is the sentinel -1, passes `some cap`
for every other value, and returns the 4-tuple (mesh, rendering parameters,
shape coefficients, blendshape coefficients) assembled from the native
results. -/
theorem c9_fit_sentinel {mu rho kappa : Type}
    (f : Option Int → (mu × rho) × List kappa × List kappa) (c : Int) :
    fitShapeAndPoseBinding f (-1) =
      ((f none).1.1, (f none).1.2, (f none).2.1, (f none).2.2) ∧
    (c ≠ -1 →
      fitShapeAndPoseBinding f c =
        ((f (some c)).1.1, (f (some c)).1.2, (f (some c)).2.1,
          (f (some c)).2.2)) := by
  constructor
  · simp [fitShapeAndPoseBinding]
  · intro h
    simp [fitShapeAndPoseBinding, h]

/-- C9 witness: the sentinel branch and a concrete non-sentinel cap 5 with
the stand-in native fit. -/
theorem c9_fit_sentinel_witness :
    ((5 : Int) ≠ -1) ∧
    fitShapeAndPoseBinding c9fit (-1) =
      ((c9fit none).1.1, (c9fit none).1.2, (c9fit none).2.1,
        (c9fit none).2.2) ∧
    fitShapeAndPoseBinding c9fit 5 =
      ((c9fit (some 5)).1.1, (c9fit (some 5)).1.2, (c9fit (some 5)).2.1,
        (c9fit (some 5)).2.2) :=
  ⟨by decide, (c9_fit_sentinel c9fit 5).1,
    (c9_fit_sentinel c9fit 5).2 (by decide)⟩

end EosBindings
